import Mathlib

/-!
# HoverFill — formal model of `src/HoverFill.tsx`

A shallow embedding of the hoverFill repository: a React widget that
overlays an animated SVG fill shape on an element.  The file models

* the edge-direction detector `getMouseEnterDirection` (shared, up to
  identical duplication, by both component variants);
* the named viewBox windows and SVG path shapes;
* the GSAP timeline built by the `animation` driver and the eight named
  slide transitions;
* the mouse/focus event handlers of the wrapper component and of the
  hook/parent-listener component, as pure state-transition functions.

JavaScript numbers are modelled as `Option ℚ`: `some q` is an ordinary
(finite) number and `none` is `NaN` (or the `NaN` produced by arithmetic
on `undefined`).  The arithmetic the source uses — subtraction,
`Math.abs`, `Math.min`, strict equality `===` — is exact on finite
doubles drawn from ℚ and propagates/never-equates `NaN` exactly as the
`Option` lifting below does.
-/

namespace HoverFill

/-- A JavaScript number: `none` models `NaN`. -/
def JSNum : Type := Option ℚ

instance : DecidableEq JSNum := by unfold JSNum; infer_instance

/-- JS subtraction `a - b`; any `NaN` operand yields `NaN`. -/
def jsSub : JSNum → JSNum → JSNum
  | some a, some b => some (a - b)
  | _, _ => none

/-- Models `Math.abs`; `Math.abs(NaN)` is `NaN`. -/
def jsAbs : JSNum → JSNum
  | some a => some |a|
  | none => none

/-- Binary `Math.min`; if either argument is `NaN` the result is `NaN`.
`Math.min(a,b,c,d)` is the left-nested iteration of this. -/
def jsMin : JSNum → JSNum → JSNum
  | some a, some b => some (min a b)
  | _, _ => none

/-- JS strict equality `===` on numbers: `NaN === x` is `false` for
every `x`, including `NaN` itself. -/
def jsEq : JSNum → JSNum → Bool
  | some a, some b => decide (a = b)
  | _, _ => false

/-- The four edges / compass directions returned by the detector. -/
inductive Direction : Type
  | top
  | bottom
  | left
  | right
deriving DecidableEq, Repr

/-- The fields of `el.getBoundingClientRect()` that the detector reads. -/
structure Rect where
  top : JSNum
  bottom : JSNum
  left : JSNum
  right : JSNum
deriving DecidableEq

/-- The fields of the `MouseEvent` that the detector reads. -/
structure MouseEv where
  clientX : JSNum
  clientY : JSNum
deriving DecidableEq

/-- The function `getMouseEnterDirection` (src/HoverFill.tsx lines 18–43, duplicated
verbatim at lines 333–358): computes the four absolute edge distances,
their minimum, and `switch`es on the minimum with cases in the order
top, bottom, left, right.  The JS `switch` compares with `===`, so when
the minimum is `NaN` no case matches and the function falls off the end,
returning `undefined` — modelled by `none`. -/
def getMouseEnterDirection (e : MouseEv) (rect : Rect) : Option Direction :=
  let topEdgeDistance := jsAbs (jsSub rect.top e.clientY)
  let bottomEdgeDistance := jsAbs (jsSub rect.bottom e.clientY)
  let leftEdgeDistance := jsAbs (jsSub rect.left e.clientX)
  let rightEdgeDistance := jsAbs (jsSub rect.right e.clientX)
  let minVal := jsMin (jsMin (jsMin topEdgeDistance bottomEdgeDistance)
    leftEdgeDistance) rightEdgeDistance
  if jsEq minVal topEdgeDistance then some .top
  else if jsEq minVal bottomEdgeDistance then some .bottom
  else if jsEq minVal leftEdgeDistance then some .left
  else if jsEq minVal rightEdgeDistance then some .right
  else none

/-- Spec-side distance of the pointer to one edge, on exact numbers:
`|rect.top - pointerY|`, `|rect.bottom - pointerY|`,
`|rect.left - pointerX|`, `|rect.right - pointerX|`. -/
def edgeDistance (px py rT rB rL rR : ℚ) : Direction → ℚ
  | .top => |rT - py|
  | .bottom => |rB - py|
  | .left => |rL - px|
  | .right => |rR - px|

/-- Spec-side detector, written from the spec's words: return the first
direction, in the fixed priority order top, bottom, left, right, whose
distance equals the minimum of the four distances. -/
def specEdgeDirection (px py rT rB rL rR : ℚ) : Option Direction :=
  let dist := edgeDistance px py rT rB rL rR
  let m := min (min (min (dist .top) (dist .bottom)) (dist .left)) (dist .right)
  [Direction.top, .bottom, .left, .right].find? (fun d => decide (m = dist d))

/-- The minimum of four values is one of them. -/
lemma min4_choice (a b c d : ℚ) :
    min (min (min a b) c) d = a ∨ min (min (min a b) c) d = b ∨
    min (min (min a b) c) d = c ∨ min (min (min a b) c) d = d := by
  rcases min_choice (min (min a b) c) d with h | h
  · rcases min_choice (min a b) c with h' | h'
    · rcases min_choice a b with h'' | h''
      · exact Or.inl (by rw [h, h', h''])
      · exact Or.inr (Or.inl (by rw [h, h', h'']))
    · exact Or.inr (Or.inr (Or.inl (by rw [h, h'])))
  · exact Or.inr (Or.inr (Or.inr h))

/-- On NaN-free inputs the code detector agrees with the spec-side
detector. -/
lemma getMouseEnterDirection_eq_spec (px py rT rB rL rR : ℚ) :
    getMouseEnterDirection ⟨some px, some py⟩ ⟨some rT, some rB, some rL, some rR⟩
      = specEdgeDirection px py rT rB rL rR := by
  unfold getMouseEnterDirection specEdgeDirection
  simp only [jsSub, jsAbs, jsMin, jsEq, edgeDistance, List.find?]
  by_cases h1 : min (min (min |rT - py| |rB - py|) |rL - px|) |rR - px| = |rT - py| <;>
    by_cases h2 : min (min (min |rT - py| |rB - py|) |rL - px|) |rR - px| = |rB - py| <;>
      by_cases h3 : min (min (min |rT - py| |rB - py|) |rL - px|) |rR - px| = |rL - px| <;>
        by_cases h4 : min (min (min |rT - py| |rB - py|) |rL - px|) |rR - px| = |rR - px| <;>
          simp [h1, h2, h3, h4] <;> (try (split <;> simp_all))

/-- On NaN-free inputs the spec-side detector always yields a direction:
the minimum of four values is attained by one of them, so the priority
scan finds a match. -/
lemma specEdgeDirection_isSome (px py rT rB rL rR : ℚ) :
    (specEdgeDirection px py rT rB rL rR).isSome = true := by
  unfold specEdgeDirection
  rw [List.find?_isSome]
  rcases min4_choice (edgeDistance px py rT rB rL rR .top)
      (edgeDistance px py rT rB rL rR .bottom) (edgeDistance px py rT rB rL rR .left)
      (edgeDistance px py rT rB rL rR .right) with h | h | h | h
  · exact ⟨.top, by simp, by simp [h]⟩
  · exact ⟨.bottom, by simp, by simp [h]⟩
  · exact ⟨.left, by simp, by simp [h]⟩
  · exact ⟨.right, by simp, by simp [h]⟩

/-- Claim C1: For every pointer position and bounding rectangle (finite
coordinates), the edge-direction detector returns exactly the direction
the spec describes: the first direction, in the fixed priority order
top, bottom, left, right, whose absolute axis distance equals the
minimum of the four distances — and such a direction always exists. -/
theorem c1_detector_matches_spec (px py rT rB rL rR : ℚ) :
    getMouseEnterDirection ⟨some px, some py⟩ ⟨some rT, some rB, some rL, some rR⟩
        = specEdgeDirection px py rT rB rL rR ∧
      (specEdgeDirection px py rT rB rL rR).isSome = true :=
  ⟨getMouseEnterDirection_eq_spec px py rT rB rL rR,
   specEdgeDirection_isSome px py rT rB rL rR⟩

/-! ## ViewBoxes and paths

The source stores viewBoxes and paths as strings; here each viewBox
string `"x y w h"` is the structure of its four numbers, and each path
string `M x0 y0 Q c1x c1y p1x p1y Q …` is its start point followed by
the list of quadratic-Bézier `(control, endpoint)` pairs. -/

/-- An SVG viewBox `(origin-x, origin-y, width, height)`. -/
structure ViewBox where
  x : ℚ
  y : ℚ
  w : ℚ
  h : ℚ
deriving DecidableEq

/-- Source string `vbCenter = "0 0 100 100"` -/
def vbCenter : ViewBox := ⟨0, 0, 100, 100⟩
/-- Source string `vbTop = "0 101 100 100"` -/
def vbTop : ViewBox := ⟨0, 101, 100, 100⟩
/-- Source string `vbBottom = "0 -101 100 100"` -/
def vbBottom : ViewBox := ⟨0, -101, 100, 100⟩
/-- Source string `vbLeft = "101 0 100 100"` -/
def vbLeft : ViewBox := ⟨101, 0, 100, 100⟩
/-- Source string `vbRight = "-101 0 100 100"` -/
def vbRight : ViewBox := ⟨-101, 0, 100, 100⟩

/-- An SVG path: a `M` start point and a list of quadratic Bézier
segments, each given by its control point and its endpoint (the start
point of a segment is the previous segment's endpoint). -/
structure PathData where
  start : ℚ × ℚ
  segs : List ((ℚ × ℚ) × (ℚ × ℚ))
deriving DecidableEq

/-- Source string `M 0 0 Q 50 0 100 0 Q 100 50 100 100 Q 50 100 0 100 Q 0 50 0 0` -/
def squarePath : PathData :=
  ⟨(0, 0), [((50, 0), (100, 0)), ((100, 50), (100, 100)),
    ((50, 100), (0, 100)), ((0, 50), (0, 0))]⟩

/-- Source string `M 0 0 Q 50 50 100 0 Q 100 50 100 100 Q 50 100 0 100 Q 0 50 0 0` -/
def concaveTopPath : PathData :=
  ⟨(0, 0), [((50, 50), (100, 0)), ((100, 50), (100, 100)),
    ((50, 100), (0, 100)), ((0, 50), (0, 0))]⟩

/-- Source string `M 0 0 Q 50 0 100 0 Q 50 50 100 100 Q 50 100 0 100 Q 0 50 0 0` -/
def concaveRightPath : PathData :=
  ⟨(0, 0), [((50, 0), (100, 0)), ((50, 50), (100, 100)),
    ((50, 100), (0, 100)), ((0, 50), (0, 0))]⟩

/-- Source string `M 0 0 Q 50 0 100 0 Q 100 50 100 100 Q 50 50 0 100 Q 0 50 0 0` -/
def concaveBottomPath : PathData :=
  ⟨(0, 0), [((50, 0), (100, 0)), ((100, 50), (100, 100)),
    ((50, 50), (0, 100)), ((0, 50), (0, 0))]⟩

/-- Source string `M 0 0 Q 50 0 100 0 Q 100 50 100 100 Q 50 100 0 100 Q 50 50 0 0` -/
def concaveLeftPath : PathData :=
  ⟨(0, 0), [((50, 0), (100, 0)), ((100, 50), (100, 100)),
    ((50, 100), (0, 100)), ((50, 50), (0, 0))]⟩

/-- Source string `M 0 0 Q 50 -50 100 0 Q 100 50 100 100 Q 50 100 0 100 Q 0 50 0 0` -/
def convexTopPath : PathData :=
  ⟨(0, 0), [((50, -50), (100, 0)), ((100, 50), (100, 100)),
    ((50, 100), (0, 100)), ((0, 50), (0, 0))]⟩

/-- Source string `M 0 0 Q 50 0 100 0 Q 100 50 100 100 Q 50 150 0 100 Q 0 50 0 0` -/
def convexBottomPath : PathData :=
  ⟨(0, 0), [((50, 0), (100, 0)), ((100, 50), (100, 100)),
    ((50, 150), (0, 100)), ((0, 50), (0, 0))]⟩

/-- Source string `M 0 0 Q 50 0 100 0 Q 100 50 100 100 Q 50 100 0 100 Q -50 50 0 0` -/
def convexLeftPath : PathData :=
  ⟨(0, 0), [((50, 0), (100, 0)), ((100, 50), (100, 100)),
    ((50, 100), (0, 100)), ((-50, 50), (0, 0))]⟩

/-- Source string `M 0 0 Q 50 0 100 0 Q 150 50 100 100 Q 50 100 0 100 Q 0 50 0 0` -/
def convexRightPath : PathData :=
  ⟨(0, 0), [((50, 0), (100, 0)), ((150, 50), (100, 100)),
    ((50, 100), (0, 100)), ((0, 50), (0, 0))]⟩

/-! ## The eight named transitions -/

/-- The eight named slide transitions (src/HoverFill.tsx lines 186–216;
identically at 457–487 in the hook variant). -/
inductive TransitionName : Type
  | slideDownOut
  | slideUpIn
  | slideUpOut
  | slideDownIn
  | slideLeftIn
  | slideRightIn
  | slideLeftOut
  | slideRightOut
deriving DecidableEq, Repr

/-- The `(vbFrom, vbTo, drawPath)` argument triple each named transition
passes to the `animation` driver. -/
def transitionArgs : TransitionName → ViewBox × ViewBox × PathData
  | .slideDownOut => (vbCenter, vbBottom, concaveTopPath)
  | .slideUpIn => (vbBottom, vbCenter, convexTopPath)
  | .slideUpOut => (vbCenter, vbTop, concaveBottomPath)
  | .slideDownIn => (vbTop, vbCenter, convexBottomPath)
  | .slideLeftIn => (vbLeft, vbCenter, convexRightPath)
  | .slideRightIn => (vbRight, vbCenter, convexLeftPath)
  | .slideLeftOut => (vbCenter, vbLeft, concaveRightPath)
  | .slideRightOut => (vbCenter, vbRight, concaveLeftPath)

/-- Claim C2: Each of the eight named transitions invokes the animation
driver with exactly the spec table's (startViewBox, endViewBox,
directionalPath) triple; the center viewBox is (0,0,100,100) and each
offset viewBox differs from center by exactly ±101 along one axis. -/
theorem c2_transition_table :
    transitionArgs .slideDownOut = (vbCenter, vbBottom, concaveTopPath) ∧
    transitionArgs .slideUpIn = (vbBottom, vbCenter, convexTopPath) ∧
    transitionArgs .slideUpOut = (vbCenter, vbTop, concaveBottomPath) ∧
    transitionArgs .slideDownIn = (vbTop, vbCenter, convexBottomPath) ∧
    transitionArgs .slideLeftIn = (vbLeft, vbCenter, convexRightPath) ∧
    transitionArgs .slideRightIn = (vbRight, vbCenter, convexLeftPath) ∧
    transitionArgs .slideLeftOut = (vbCenter, vbLeft, concaveRightPath) ∧
    transitionArgs .slideRightOut = (vbCenter, vbRight, concaveLeftPath) ∧
    vbCenter = ⟨0, 0, 100, 100⟩ ∧
    (vbTop.x = vbCenter.x ∧ vbTop.w = vbCenter.w ∧ vbTop.h = vbCenter.h ∧
      |vbTop.y - vbCenter.y| = 101) ∧
    (vbBottom.x = vbCenter.x ∧ vbBottom.w = vbCenter.w ∧ vbBottom.h = vbCenter.h ∧
      |vbBottom.y - vbCenter.y| = 101) ∧
    (vbLeft.y = vbCenter.y ∧ vbLeft.w = vbCenter.w ∧ vbLeft.h = vbCenter.h ∧
      |vbLeft.x - vbCenter.x| = 101) ∧
    (vbRight.y = vbCenter.y ∧ vbRight.w = vbCenter.w ∧ vbRight.h = vbCenter.h ∧
      |vbRight.x - vbCenter.x| = 101) := by
  refine ⟨rfl, rfl, rfl, rfl, rfl, rfl, rfl, rfl, rfl, ?_, ?_, ?_, ?_⟩ <;>
    refine ⟨rfl, rfl, rfl, ?_⟩ <;>
      simp [vbCenter, vbTop, vbBottom, vbLeft, vbRight]

/-! ## Direction dispatch of the wrapper component

`handleMouseEnter`/`handleMouseLeave` (src/HoverFill.tsx lines 225–250)
pick a transition from the detected direction with an if/else-if chain
whose final `else` also catches a missing direction (`undefined`). -/

/-- The direction→transition chain of the wrapper's `handleMouseEnter`
(lines 230–235): `bottom ? (invert ? slideDownIn : slideUpIn) : top ?
(invert ? slideUpIn : slideDownIn) : left ? (invert ? slideRightIn :
slideLeftIn) : (invert ? slideLeftIn : slideRightIn)`. -/
def enterDispatch (fillInvert : Bool) (mouseDirection : Option Direction) :
    TransitionName :=
  if mouseDirection = some .bottom then
    if fillInvert then .slideDownIn else .slideUpIn
  else if mouseDirection = some .top then
    if fillInvert then .slideUpIn else .slideDownIn
  else if mouseDirection = some .left then
    if fillInvert then .slideRightIn else .slideLeftIn
  else
    if fillInvert then .slideLeftIn else .slideRightIn

/-- The direction→transition chain of the wrapper's `handleMouseLeave`
(lines 243–249).  Note the source's left branch reads
`fillInvert ? slideLeftOut() : slideLeftOut()` — the same transition on
both sides of the conditional. -/
def leaveDispatch (fillInvert : Bool) (mouseDirection : Option Direction) :
    TransitionName :=
  if mouseDirection = some .bottom then
    if fillInvert then .slideUpOut else .slideDownOut
  else if mouseDirection = some .top then
    if fillInvert then .slideDownOut else .slideUpOut
  else if mouseDirection = some .left then
    if fillInvert then .slideLeftOut else .slideLeftOut
  else
    if fillInvert then .slideLeftOut else .slideRightOut

/-- The transition for the opposite compass direction: up↔down and
left↔right, with the in/out kind preserved. -/
def oppositeTransition : TransitionName → TransitionName
  | .slideDownOut => .slideUpOut
  | .slideUpIn => .slideDownIn
  | .slideUpOut => .slideDownOut
  | .slideDownIn => .slideUpIn
  | .slideLeftIn => .slideRightIn
  | .slideRightIn => .slideLeftIn
  | .slideLeftOut => .slideRightOut
  | .slideRightOut => .slideLeftOut

/-- Claim C3: In the wrapper component, `fillInvert = true` swaps every
direction's enter transition and every leave transition to the opposite
compass direction relative to `fillInvert = false` — except the
left-leave case, which yields `slideLeftOut` under both flag values and
therefore is not the swap of its non-inverted counterpart. -/
theorem c3_invert_swaps_except_left_leave :
    (enterDispatch true (some .top)
        = oppositeTransition (enterDispatch false (some .top))) ∧
    (enterDispatch true (some .bottom)
        = oppositeTransition (enterDispatch false (some .bottom))) ∧
    (enterDispatch true (some .left)
        = oppositeTransition (enterDispatch false (some .left))) ∧
    (enterDispatch true (some .right)
        = oppositeTransition (enterDispatch false (some .right))) ∧
    (leaveDispatch true (some .top)
        = oppositeTransition (leaveDispatch false (some .top))) ∧
    (leaveDispatch true (some .bottom)
        = oppositeTransition (leaveDispatch false (some .bottom))) ∧
    (leaveDispatch true (some .right)
        = oppositeTransition (leaveDispatch false (some .right))) ∧
    (leaveDispatch true (some .left) = .slideLeftOut) ∧
    (leaveDispatch false (some .left) = .slideLeftOut) ∧
    (leaveDispatch true (some .left)
        ≠ oppositeTransition (leaveDispatch false (some .left))) := by
  decide

/-! ## Event handlers as state-transition functions

Each handler is modelled as a pure function from the current filled
state (and the pointer data with its target's bounding rectangle) to the
next filled state together with the list of transitions dispatched to
the animation driver during the event.  `setIsFilled`/`hovered.current`
updates are modelled as taking effect for the next event. -/

/-- Direction values accepted by `fillTabEnter` / `fillTabLeave`. -/
inductive TabDir : Type
  | up
  | down
  | left
  | right
deriving DecidableEq, Repr

/-- The behavior-relevant configuration of the wrapper component.
(`fillColor`, `fillOpacity`, `fillInvertColors`, `fillZ` only style the
SVG and are never read by the handlers, so they are omitted;
`fillDuration` is passed separately to the animation driver.) -/
structure WrapperCfg where
  fillPin : Bool
  fillOnTab : Bool
  fillTabEnter : TabDir
  fillTabLeave : TabDir
  fillInvert : Bool
deriving DecidableEq

/-- A pointer event together with the bounding rectangle of its target
(the source calls `getMouseEnterDirection(e, e.target)`). -/
structure PointerData where
  ev : MouseEv
  rect : Rect
deriving DecidableEq

/-- Handler `handleMouseEnter` (lines 225–236): early-return if already filled;
set filled; early-return if pinned; else dispatch by direction. -/
def handleMouseEnter (cfg : WrapperCfg) (isFilled : Bool) (p : PointerData) :
    Bool × List TransitionName :=
  if isFilled then (isFilled, [])
  else if cfg.fillPin then (true, [])
  else (true, [enterDispatch cfg.fillInvert (getMouseEnterDirection p.ev p.rect)])

/-- Handler `handleMouseLeave` (lines 238–250): early-return if not filled;
clear filled; early-return if pinned; else dispatch by direction. -/
def handleMouseLeave (cfg : WrapperCfg) (isFilled : Bool) (p : PointerData) :
    Bool × List TransitionName :=
  if !isFilled then (isFilled, [])
  else if cfg.fillPin then (false, [])
  else (false, [leaveDispatch cfg.fillInvert (getMouseEnterDirection p.ev p.rect)])

/-- Handler `handleFocus` (lines 252–257): always `slideUpIn`, never reading
`fillTabEnter`. -/
def handleFocus (cfg : WrapperCfg) (isFilled : Bool) :
    Bool × List TransitionName :=
  if isFilled then (isFilled, [])
  else if cfg.fillPin then (true, [])
  else (true, [.slideUpIn])

/-- Handler `handleBlur` (lines 259–264): always `slideDownOut`, never reading
`fillTabLeave`. -/
def handleBlur (cfg : WrapperCfg) (isFilled : Bool) :
    Bool × List TransitionName :=
  if !isFilled then (isFilled, [])
  else if cfg.fillPin then (false, [])
  else (false, [.slideDownOut])

/-- The wrapper's `useGSAP` mount effect (lines 218–223): set the
viewBox to `fillPin ? vbCenter : vbTop` and the path to the square. -/
def wrapperInit (fillPin : Bool) : ViewBox × PathData :=
  (if fillPin then vbCenter else vbTop, squarePath)

/-- Whether the wrapper's render spreads `onFocus`/`onBlur` handlers
onto the host element (line 271:
`{...(fillOnTab ? { onFocus: handleFocus, onBlur: handleBlur } : {})}`). -/
def focusHandlersAttached (cfg : WrapperCfg) : Bool := cfg.fillOnTab

/-! ### Hook/parent-listener variant (second half of the file) -/

/-- The hook variant's `handleMouseEnter` (lines 397–406).  Unlike the
wrapper, every direction case is an explicit `else if`, so an
`undefined` direction dispatches nothing; there is no invert flag. -/
def hookHandleMouseEnter (pinned : Bool) (hovered : Bool) (p : PointerData) :
    Bool × List TransitionName :=
  if hovered then (hovered, [])
  else if pinned then (true, [])
  else
    match getMouseEnterDirection p.ev p.rect with
    | some .bottom => (true, [.slideUpIn])
    | some .top => (true, [.slideDownIn])
    | some .left => (true, [.slideLeftIn])
    | some .right => (true, [.slideRightIn])
    | none => (true, [])

/-- The hook variant's `handleMouseLeave` (lines 408–417). -/
def hookHandleMouseLeave (pinned : Bool) (hovered : Bool) (p : PointerData) :
    Bool × List TransitionName :=
  if !hovered then (hovered, [])
  else if pinned then (false, [])
  else
    match getMouseEnterDirection p.ev p.rect with
    | some .bottom => (false, [.slideDownOut])
    | some .top => (false, [.slideUpOut])
    | some .left => (false, [.slideLeftOut])
    | some .right => (false, [.slideRightOut])
    | none => (false, [])

/-- Initial viewBox `vbInit` of the hook variant (line 377):
`pinned ? vbCenter : hovered.current ? vbCenter : vbTop`. -/
def vbInit (pinned hovered : Bool) : ViewBox :=
  if pinned then vbCenter else if hovered then vbCenter else vbTop

/-- The initial `d` attribute of the hook variant's path element
(line 518: `<path ref={pathRef} d={squarePath}>`). -/
def hookInitPath : PathData := squarePath

/-- Claim C5: With the pinned flag true, every enter/focus event sets the
filled state and every leave/blur event clears it, but no handler
branch dispatches any transition to the animation driver, in either
variant; and the wrapper's mount initialization under pin places the
overlay at the center viewBox with the neutral square path. -/
theorem c5_pinned_skips_driver (onTab inv : Bool) (tE tL : TabDir)
    (isFilled : Bool) (p : PointerData) :
    handleMouseEnter ⟨true, onTab, tE, tL, inv⟩ isFilled p = (true, []) ∧
    handleMouseLeave ⟨true, onTab, tE, tL, inv⟩ isFilled p = (false, []) ∧
    handleFocus ⟨true, onTab, tE, tL, inv⟩ isFilled = (true, []) ∧
    handleBlur ⟨true, onTab, tE, tL, inv⟩ isFilled = (false, []) ∧
    hookHandleMouseEnter true isFilled p = (true, []) ∧
    hookHandleMouseLeave true isFilled p = (false, []) ∧
    wrapperInit true = (vbCenter, squarePath) := by
  cases isFilled <;>
    simp [handleMouseEnter, handleMouseLeave, handleFocus, handleBlur,
      hookHandleMouseEnter, hookHandleMouseLeave, wrapperInit]

/-- Claim C6: Enter and leave handling is idempotent on the filled state:
entering (or focusing) while already filled, and leaving (or blurring)
while not filled, leaves the state unchanged and dispatches nothing, in
both variants and for every configuration. -/
theorem c6_handlers_idempotent (cfg : WrapperCfg) (pinned : Bool)
    (p : PointerData) :
    handleMouseEnter cfg true p = (true, []) ∧
    handleFocus cfg true = (true, []) ∧
    handleMouseLeave cfg false p = (false, []) ∧
    handleBlur cfg false = (false, []) ∧
    hookHandleMouseEnter pinned true p = (true, []) ∧
    hookHandleMouseLeave pinned false p = (false, []) := by
  simp [handleMouseEnter, handleMouseLeave, handleFocus, handleBlur,
    hookHandleMouseEnter, hookHandleMouseLeave]

/-- Claim C7: Focus/blur handlers are attached to the host element exactly
when `fillOnTab` is set; and from the idle (resp. filled) un-pinned
state, focus always dispatches `slideUpIn` and blur always dispatches
`slideDownOut`, whatever the values of `fillTabEnter`/`fillTabLeave`. -/
theorem c7_focus_blur_fixed (pin onTab inv : Bool) (tE tL : TabDir) :
    (focusHandlersAttached ⟨pin, onTab, tE, tL, inv⟩ = true ↔ onTab = true) ∧
    handleFocus ⟨false, onTab, tE, tL, inv⟩ false = (true, [.slideUpIn]) ∧
    handleBlur ⟨false, onTab, tE, tL, inv⟩ true = (false, [.slideDownOut]) := by
  simp [focusHandlersAttached, handleFocus, handleBlur]

/-! ## The GSAP timeline built by the animation driver

GSAP itself is an external dependency, not code of this repository.
Its timeline-position semantics is modelled from the spec: §6 describes
the required animation-engine capability as immediate attribute sets,
time-offset tweening, and "negative/relative offsets expressed as
'percentage of duration before the end of the concurrent group'" — i.e.
a tween inserted at `"-=P%"` starts P% of its own duration before the
current end of the timeline (which is also GSAP's documented meaning of
a `"-=P%"` position). -/

/-- The two DOM nodes the driver mutates. -/
inductive TLTarget : Type
  | svg
  | path
deriving DecidableEq, Repr

/-- An attribute value written by the timeline: the svg's `viewBox` or
the path's `d`. -/
inductive TLValue : Type
  | viewBox (vb : ViewBox)
  | pathD (p : PathData)
deriving DecidableEq

/-- The easing used by every tween of the driver: `'power2.out'`, a
decelerating curve. -/
inductive Ease : Type
  | power2out
deriving DecidableEq, Repr

/-- One timeline entry, with its resolved start position in seconds. -/
inductive TLEntry : Type
  | set (target : TLTarget) (value : TLValue) (pos : ℚ)
  | tween (target : TLTarget) (value : TLValue) (dur : ℚ) (ease : Ease) (pos : ℚ)
deriving DecidableEq

/-- A timeline under construction: the entries inserted so far and the
current end time. -/
structure Timeline where
  entries : List TLEntry
  endTime : ℚ
deriving DecidableEq

/-- Models `gsap.timeline(...)` — the empty timeline. -/
def Timeline.empty : Timeline := ⟨[], 0⟩

/-- Models `tl.set(target, vars)`: an immediate (zero-duration) attribute set
placed at the current end of the timeline; the end time is unchanged. -/
def Timeline.setAttr (tl : Timeline) (target : TLTarget) (value : TLValue) :
    Timeline :=
  ⟨tl.entries ++ [.set target value tl.endTime], tl.endTime⟩

/-- Models `tl.to(target, vars, pos)` with an absolute numeric position: a
tween of duration `dur` starting at `pos`; the end time grows to cover
it. -/
def Timeline.toAt (tl : Timeline) (target : TLTarget) (value : TLValue)
    (dur : ℚ) (ease : Ease) (pos : ℚ) : Timeline :=
  ⟨tl.entries ++ [.tween target value dur ease pos], max tl.endTime (pos + dur)⟩

/-- Models `tl.to(target, vars, "-=P%")`: the inserted tween starts `pct`
(P/100) of its own duration before the current end of the timeline. -/
def Timeline.toRelPct (tl : Timeline) (target : TLTarget) (value : TLValue)
    (dur : ℚ) (ease : Ease) (pct : ℚ) : Timeline :=
  ⟨tl.entries ++ [.tween target value dur ease (tl.endTime - pct * dur)],
    max tl.endTime (tl.endTime - pct * dur + dur)⟩

/-- The wrapper's `animation` driver (lines 150–184): set the viewBox to
`vbFrom`; at position 0 tween the viewBox to `vbTo` and the path to
`drawPath`, each over `fillDuration` with `power2.out`; then chain the
path back to the square at position `"-=70%"`. -/
def animation (fillDuration : ℚ) (vbFrom vbTo : ViewBox) (drawPath : PathData) :
    Timeline :=
  ((((Timeline.empty).setAttr .svg (.viewBox vbFrom)).toAt
      .svg (.viewBox vbTo) fillDuration .power2out 0).toAt
      .path (.pathD drawPath) fillDuration .power2out 0).toRelPct
      .path (.pathD squarePath) fillDuration .power2out (7/10)

/-- The hook variant's `animation` driver (lines 422–455): identical
except for an additional immediate set of the path to the square right
after the viewBox set. -/
def hookAnimation (duration : ℚ) (vbFrom vbTo : ViewBox) (drawPath : PathData) :
    Timeline :=
  (((((Timeline.empty).setAttr .svg (.viewBox vbFrom)).setAttr
      .path (.pathD squarePath)).toAt
      .svg (.viewBox vbTo) duration .power2out 0).toAt
      .path (.pathD drawPath) duration .power2out 0).toRelPct
      .path (.pathD squarePath) duration .power2out (7/10)

/-- Claim C4, amended: Every driver invocation (a) immediately sets the
viewBox to the start window at position 0 without tweening, (b) starts
both the viewBox tween to the end window and the path tween to the
directional shape at position 0 over `duration` seconds with the
decelerating `power2.out` easing, and (c) chains the square-resolve
path tween with 70% of its duration overlapping the end of the
timeline, i.e. beginning at 30% of the duration already elapsed — at
0.15 s for duration 0.5, not at 70%/0.35 s as the claim stated. -/
theorem c4_driver_timeline (d : ℚ) (hd : 0 ≤ d) (vbFrom vbTo : ViewBox)
    (drawPath : PathData) :
    (animation d vbFrom vbTo drawPath).entries =
      [.set .svg (.viewBox vbFrom) 0,
       .tween .svg (.viewBox vbTo) d .power2out 0,
       .tween .path (.pathD drawPath) d .power2out 0,
       .tween .path (.pathD squarePath) d .power2out (3/10 * d)] ∧
    (hookAnimation d vbFrom vbTo drawPath).entries =
      [.set .svg (.viewBox vbFrom) 0,
       .set .path (.pathD squarePath) 0,
       .tween .svg (.viewBox vbTo) d .power2out 0,
       .tween .path (.pathD drawPath) d .power2out 0,
       .tween .path (.pathD squarePath) d .power2out (3/10 * d)] := by
  have hmax : max (0 : ℚ) d = d := max_eq_right hd
  constructor <;>
    · simp [animation, hookAnimation, Timeline.empty, Timeline.setAttr,
        Timeline.toAt, Timeline.toRelPct, hmax]
      ring_nf

/-- Witness for C4 at duration 1/2: the square-resolve tween of
`slideDownIn`'s timeline starts at 3/20 = 0.15 s. -/
theorem c4_driver_timeline_witness :
    (animation (1/2) vbTop vbCenter convexBottomPath).entries =
      [.set .svg (.viewBox vbTop) 0,
       .tween .svg (.viewBox vbCenter) (1/2) .power2out 0,
       .tween .path (.pathD convexBottomPath) (1/2) .power2out 0,
       .tween .path (.pathD squarePath) (1/2) .power2out (3/10 * (1/2))] ∧
    (hookAnimation (1/2) vbTop vbCenter convexBottomPath).entries =
      [.set .svg (.viewBox vbTop) 0,
       .set .path (.pathD squarePath) 0,
       .tween .svg (.viewBox vbCenter) (1/2) .power2out 0,
       .tween .path (.pathD convexBottomPath) (1/2) .power2out 0,
       .tween .path (.pathD squarePath) (1/2) .power2out (3/10 * (1/2))] :=
  c4_driver_timeline (1/2) (by norm_num) vbTop vbCenter convexBottomPath

/-- Counterexample to C4 as stated: for duration 0.5 the square-resolve
tween begins at 0.15 s (= 3/20), not at 0.35 s (= 7/20): `"-=70%"`
places it 70% of its duration before the end of the timeline. -/
theorem c4_claimed_start_refuted :
    (animation (1/2) vbCenter vbBottom concaveTopPath).entries.getLast? =
      some (.tween .path (.pathD squarePath) (1/2) .power2out (3/20)) ∧
    ¬ (animation (1/2) vbCenter vbBottom concaveTopPath).entries.getLast? =
      some (.tween .path (.pathD squarePath) (1/2) .power2out (7/20)) := by
  constructor <;>
    · simp [animation, Timeline.empty, Timeline.setAttr, Timeline.toAt,
        Timeline.toRelPct]
      norm_num

/-! ## Event sequences and the two variants compared -/

/-- A pointer event delivered to a component: enter or leave, with the
pointer coordinates and the target's bounding rectangle. -/
inductive PEvent : Type
  | enter (p : PointerData)
  | leave (p : PointerData)
deriving DecidableEq

/-- The pointer data carried by an event. -/
def PEvent.pdata : PEvent → PointerData
  | .enter p => p
  | .leave p => p

/-- One pointer-event step of the wrapper component. -/
def wrapperStep (cfg : WrapperCfg) (isFilled : Bool) :
    PEvent → Bool × List TransitionName
  | .enter p => handleMouseEnter cfg isFilled p
  | .leave p => handleMouseLeave cfg isFilled p

/-- Run the wrapper component over an event sequence from a filled
state, collecting all transitions dispatched to the driver in order. -/
def runWrapper (cfg : WrapperCfg) (isFilled : Bool) :
    List PEvent → Bool × List TransitionName
  | [] => (isFilled, [])
  | ev :: rest =>
    let r := wrapperStep cfg isFilled ev
    let r' := runWrapper cfg r.1 rest
    (r'.1, r.2 ++ r'.2)

/-- One pointer-event step of the hook variant. -/
def hookStep (pinned : Bool) (hovered : Bool) :
    PEvent → Bool × List TransitionName
  | .enter p => hookHandleMouseEnter pinned hovered p
  | .leave p => hookHandleMouseLeave pinned hovered p

/-- Run the hook variant over an event sequence. -/
def runHook (pinned : Bool) (hovered : Bool) :
    List PEvent → Bool × List TransitionName
  | [] => (hovered, [])
  | ev :: rest =>
    let r := hookStep pinned hovered ev
    let r' := runHook pinned r.1 rest
    (r'.1, r.2 ++ r'.2)

/-- Pointer data whose coordinates are all actual numbers (no NaN,
no undefined). -/
def PointerData.finite (p : PointerData) : Prop :=
  p.ev.clientX.isSome = true ∧ p.ev.clientY.isSome = true ∧
  p.rect.top.isSome = true ∧ p.rect.bottom.isSome = true ∧
  p.rect.left.isSome = true ∧ p.rect.right.isSome = true

instance (p : PointerData) : Decidable p.finite := by
  unfold PointerData.finite; infer_instance

/-- On finite pointer data the detector always yields a direction. -/
lemma getDir_isSome_of_finite (p : PointerData) (h : p.finite) :
    (getMouseEnterDirection p.ev p.rect).isSome = true := by
  obtain ⟨⟨cx, cy⟩, rt, rb, rl, rr⟩ := p
  obtain ⟨hx, hy, ht, hb, hl, hr⟩ := h
  cases cx <;> cases cy <;> cases rt <;> cases rb <;> cases rl <;> cases rr <;>
    simp_all
  rw [getMouseEnterDirection_eq_spec]
  exact specEdgeDirection_isSome _ _ _ _ _ _

/-- With the invert flag false, each wrapper step agrees with the
corresponding hook step on finite pointer data. -/
lemma wrapperStep_eq_hookStep (pin onTab : Bool) (tE tL : TabDir)
    (s : Bool) (ev : PEvent) (h : ev.pdata.finite) :
    wrapperStep ⟨pin, onTab, tE, tL, false⟩ s ev = hookStep pin s ev := by
  have hdir := getDir_isSome_of_finite ev.pdata h
  cases ev with
  | enter p =>
    obtain ⟨d, hd⟩ := Option.isSome_iff_exists.mp hdir
    cases d <;>
      simp [wrapperStep, hookStep, handleMouseEnter, hookHandleMouseEnter,
        enterDispatch, PEvent.pdata] at hd ⊢ <;> simp [hd]
  | leave p =>
    obtain ⟨d, hd⟩ := Option.isSome_iff_exists.mp hdir
    cases d <;>
      simp [wrapperStep, hookStep, handleMouseLeave, hookHandleMouseLeave,
        leaveDispatch, PEvent.pdata] at hd ⊢ <;> simp [hd]

/-- Claim C9, amended: For every configuration whose invert-direction
flag is false and every sequence of pointer enter/leave events with
numeric (non-NaN) coordinates, the wrapper component and the hook
variant reach the same filled state and dispatch the same transitions
(hence the same driver argument triples) in the same order.  (The hook
variant has no invert-direction flag; with `fillInvert = true` the
wrapper diverges from it.) -/
theorem c9_variants_equivalent (pin onTab : Bool) (tE tL : TabDir)
    (events : List PEvent) (h : ∀ ev ∈ events, ev.pdata.finite) (s : Bool) :
    runWrapper ⟨pin, onTab, tE, tL, false⟩ s events = runHook pin s events := by
  induction events generalizing s with
  | nil => rfl
  | cons ev rest ih =>
    have hev : ev.pdata.finite := h ev (by simp)
    have hrest : ∀ e ∈ rest, e.pdata.finite := fun e he => h e (by simp [he])
    simp only [runWrapper, runHook,
      wrapperStep_eq_hookStep pin onTab tE tL s ev hev, ih hrest]

/-- Witness for C9: a concrete two-event run (enter near the top edge,
leave near the right edge) on which both variants agree. -/
theorem c9_variants_equivalent_witness :
    runWrapper ⟨false, false, .up, .down, false⟩ false
      [.enter ⟨⟨some 50, some 1⟩, some 0, some 100, some 0, some 100⟩,
       .leave ⟨⟨some 99, some 50⟩, some 0, some 100, some 0, some 100⟩]
      = runHook false false
      [.enter ⟨⟨some 50, some 1⟩, some 0, some 100, some 0, some 100⟩,
       .leave ⟨⟨some 99, some 50⟩, some 0, some 100, some 0, some 100⟩] :=
  c9_variants_equivalent false false .up .down _ (by decide) false

/-- Counterexample to C9 as stated: with the invert-direction flag set,
a single pointer-enter from the bottom edge makes the wrapper dispatch
`slideDownIn` while the hook variant (which has no such flag) dispatches
`slideUpIn`, and their driver argument triples differ. -/
theorem c9_invert_counterexample :
    runWrapper ⟨false, false, .up, .down, true⟩ false
      [.enter ⟨⟨some 50, some 99⟩, some 0, some 100, some 0, some 100⟩]
      = (true, [.slideDownIn]) ∧
    runHook false false
      [.enter ⟨⟨some 50, some 99⟩, some 0, some 100, some 0, some 100⟩]
      = (true, [.slideUpIn]) ∧
    transitionArgs .slideDownIn ≠ transitionArgs .slideUpIn := by
  have hdir : getMouseEnterDirection ⟨some 50, some 99⟩
      ⟨some 0, some 100, some 0, some 100⟩ = some .bottom := by
    unfold getMouseEnterDirection
    norm_num [jsSub, jsAbs, jsMin, jsEq, min_def, abs]
  refine ⟨?_, ?_, ?_⟩
  · simp [runWrapper, wrapperStep, handleMouseEnter, enterDispatch, hdir]
  · simp [runHook, hookStep, hookHandleMouseEnter, hdir]
  · intro heq
    have hy := congrArg (fun t => t.1.y) heq
    simp only [transitionArgs, vbTop, vbBottom] at hy
    norm_num at hy

/-! ## Safety of the detector (C8) -/

/-- Claim C8, amended: On every input whose coordinates are actual
numbers — including degenerate (e.g. zero-size) rectangles — the
detector computes the minimum and returns one of the four directions,
deterministically per the tie order; it is a total function (never
throws).  (With a NaN or undefined coordinate it instead returns no
direction at all, see the counterexample.) -/
theorem c8_detector_total_on_numeric (px py rT rB rL rR : ℚ) :
    (getMouseEnterDirection ⟨some px, some py⟩
      ⟨some rT, some rB, some rL, some rR⟩).isSome = true := by
  rw [getMouseEnterDirection_eq_spec]
  exact specEdgeDirection_isSome px py rT rB rL rR

/-- Counterexample to C8 as stated: with an undefined/NaN pointer
coordinate every distance and their minimum are NaN, `NaN === NaN` is
false, so the `switch` matches no case and the function returns
`undefined` — not one of the four directions. -/
theorem c8_nan_counterexample :
    getMouseEnterDirection ⟨none, some 0⟩ ⟨some 0, some 0, some 0, some 0⟩
      = none := by
  simp [getMouseEnterDirection, jsSub, jsAbs, jsMin, jsEq]

/-! ## Initial mount state and the square's geometry (C10) -/

/-- The point of a quadratic Bézier segment with endpoints `p0`, `p2`
and control point `p1`, at parameter `t`. -/
def quadBezier (p0 p1 p2 : ℚ × ℚ) (t : ℚ) : ℚ × ℚ :=
  ((1 - t) ^ 2 * p0.1 + 2 * t * (1 - t) * p1.1 + t ^ 2 * p2.1,
   (1 - t) ^ 2 * p0.2 + 2 * t * (1 - t) * p1.2 + t ^ 2 * p2.2)

/-- Resolve a path's segments to explicit (start, control, end)
triples. -/
def segsFrom (start : ℚ × ℚ) :
    List ((ℚ × ℚ) × (ℚ × ℚ)) → List ((ℚ × ℚ) × (ℚ × ℚ) × (ℚ × ℚ))
  | [] => []
  | s :: rest => (start, s.1, s.2) :: segsFrom s.2 rest

/-- The (start, control, end) triples of a path's segments. -/
def PathData.segments (p : PathData) :
    List ((ℚ × ℚ) × (ℚ × ℚ) × (ℚ × ℚ)) :=
  segsFrom p.start p.segs

/-- A point lies inside the window described by a viewBox. -/
def ViewBox.contains (vb : ViewBox) (pt : ℚ × ℚ) : Prop :=
  vb.x ≤ pt.1 ∧ pt.1 ≤ vb.x + vb.w ∧ vb.y ≤ pt.2 ∧ pt.2 ≤ vb.y + vb.h

/-- Claim C10: On mount with pin false both variants show the top-offset
window `0 101 100 100` with the neutral square path, and every point of
the square path (each quadratic segment lies in the convex hull of its
control points, and here traces a straight edge) is outside that
window, so the overlay starts visually empty; with pin true the initial
window is the center viewBox and every point of the square path lies in
(on the boundary of) that window, covering it from the start. -/
theorem c10_initial_mount_state :
    wrapperInit false = (vbTop, squarePath) ∧
    vbInit false false = vbTop ∧
    hookInitPath = squarePath ∧
    wrapperInit true = (vbCenter, squarePath) ∧
    (∀ hov : Bool, vbInit true hov = vbCenter) ∧
    (∀ seg ∈ squarePath.segments, ∀ t : ℚ, 0 ≤ t → t ≤ 1 →
      ¬ vbTop.contains (quadBezier seg.1 seg.2.1 seg.2.2 t)) ∧
    (∀ seg ∈ squarePath.segments, ∀ t : ℚ, 0 ≤ t → t ≤ 1 →
      vbCenter.contains (quadBezier seg.1 seg.2.1 seg.2.2 t)) := by
  refine ⟨rfl, rfl, rfl, rfl, fun hov => rfl, ?_, ?_⟩
  · intro seg hseg t ht0 ht1
    simp only [squarePath, PathData.segments, segsFrom, List.mem_cons,
      List.not_mem_nil, or_false] at hseg
    rcases hseg with h | h | h | h <;> subst h <;>
      · simp only [ViewBox.contains, quadBezier, vbTop, not_and, not_le]
        intro _ _ _
        nlinarith [sq_nonneg t, sq_nonneg (1 - t),
          mul_nonneg ht0 (sub_nonneg.mpr ht1)]
  · intro seg hseg t ht0 ht1
    simp only [squarePath, PathData.segments, segsFrom, List.mem_cons,
      List.not_mem_nil, or_false] at hseg
    rcases hseg with h | h | h | h <;> subst h <;>
      · simp only [ViewBox.contains, quadBezier, vbCenter]
        refine ⟨?_, ?_, ?_, ?_⟩ <;>
          nlinarith [sq_nonneg t, sq_nonneg (1 - t),
            mul_nonneg ht0 (sub_nonneg.mpr ht1)]

/-- Witness for C10: at parameter 1/2 of the square's first segment the
point (50, 0) is outside the top-offset window and inside the center
window. -/
theorem c10_initial_mount_state_witness :
    ¬ vbTop.contains (quadBezier (0, 0) (50, 0) (100, 0) (1 / 2)) ∧
    vbCenter.contains (quadBezier (0, 0) (50, 0) (100, 0) (1 / 2)) :=
  ⟨c10_initial_mount_state.2.2.2.2.2.1 ((0, 0), (50, 0), (100, 0))
      (by simp [squarePath, PathData.segments, segsFrom]) (1 / 2)
      (by norm_num) (by norm_num),
   c10_initial_mount_state.2.2.2.2.2.2 ((0, 0), (50, 0), (100, 0))
      (by simp [squarePath, PathData.segments, segsFrom]) (1 / 2)
      (by norm_num) (by norm_num)⟩

end HoverFill
